import Mathlib

/-!
Shallow embedding of the tax-regime simulator
(`src/lib/tax-calculator.ts` and the simulation orchestrator in
`src/app/actions.ts`).  JavaScript numbers are modelled as rationals:
every constant appearing in the source is an exact decimal, and the
claims under study concern exact decimal arithmetic.  The JavaScript
idiom `parseFloat(x.toFixed(2))` is modelled by rounding to the nearest
multiple of 1/100.
-/

namespace TaxCalc

/-- Model of the JavaScript idiom `parseFloat(x.toFixed(2))`:
round to two decimal places. -/
def round2 (x : ℚ) : ℚ := (round (x * 100) : ℚ) / 100

/-- Enumeration `ActivityType` from src/lib/tax-calculator.ts. -/
inductive ActivityType where
  | VENTE_BIC
  | SERVICE_BIC
  | LIBERAL_BNC_AUTRE
  | LIBERAL_BNC_CIPAV
deriving DecidableEq, Repr

/-- One entry of the bracket table of `calculateIncomeTax`;
`limit = none` encodes the JavaScript `Infinity` of the last bracket. -/
structure TaxBracket where
  limit : Option ℚ
  rate : ℚ
deriving Repr

/-- The bracket table literal of `calculateIncomeTax`
(2023 income, single fiscal part). -/
def brackets : List TaxBracket :=
  [⟨some 11294, 0⟩,
   ⟨some 28797, 0.11⟩,
   ⟨some 82341, 0.30⟩,
   ⟨some 177106, 0.41⟩,
   ⟨none, 0.45⟩]

/-- The `for … break` loop of `calculateIncomeTax`: walks the bracket
list accumulating `(min(income, limit) - previousLimit) * rate`,
stopping as soon as the income no longer exceeds `previousLimit`. -/
def bracketStep (taxableIncome : ℚ) : List TaxBracket → ℚ → ℚ → ℚ
  | [], tax, _ => tax
  | b :: rest, tax, previousLimit =>
    if taxableIncome > previousLimit then
      let cap := match b.limit with
        | some l => min taxableIncome l
        | none => taxableIncome
      let newPrev := match b.limit with
        | some l => l
        | none => taxableIncome
      bracketStep taxableIncome rest (tax + (cap - previousLimit) * b.rate) newPrev
    else
      tax

/-- Embedding of `calculateIncomeTax` from src/lib/tax-calculator.ts. -/
def calculateIncomeTax (taxableIncome : ℚ) : ℚ :=
  if taxableIncome ≤ 0 then 0
  else round2 (bracketStep taxableIncome brackets 0 0)

/-- Closed form of the bracket loop: sum of the marginal amounts of the
four taxed slices.  Proved equal to the loop value in
`calculateIncomeTax_eq_closedForm`. -/
def taxClosedForm (x : ℚ) : ℚ :=
  0.11 * max 0 (min x 28797 - 11294)
  + 0.30 * max 0 (min x 82341 - 28797)
  + 0.41 * max 0 (min x 177106 - 82341)
  + 0.45 * max 0 (x - 177106)

lemma round2_zero : round2 0 = 0 := by
  unfold round2
  norm_num

lemma round2_mono {x y : ℚ} (h : x ≤ y) : round2 x ≤ round2 y := by
  unfold round2
  have hz : round (x * 100) ≤ round (y * 100) := by
    rw [round_eq, round_eq]
    exact Int.floor_mono (by linarith)
  have hq : ((round (x * 100) : ℤ) : ℚ) ≤ ((round (y * 100) : ℤ) : ℚ) :=
    Int.cast_le.mpr hz
  linarith

lemma round2_nonneg {x : ℚ} (h : 0 ≤ x) : 0 ≤ round2 x := by
  have := round2_mono h
  rwa [round2_zero] at this

lemma round2_le (x : ℚ) : round2 x ≤ x + 1/200 := by
  unfold round2
  have h := abs_sub_round (x * 100)
  rw [abs_le] at h
  have h2 : ((round (x * 100) : ℤ) : ℚ) ≤ x * 100 + 1/2 := by linarith [h.1]
  linarith

lemma le_round2 (x : ℚ) : x - 1/200 ≤ round2 x := by
  unfold round2
  have h := abs_sub_round (x * 100)
  rw [abs_le] at h
  have h2 : x * 100 - 1/2 ≤ ((round (x * 100) : ℤ) : ℚ) := by linarith [h.2]
  linarith

lemma round2_div_100 (n : ℤ) : round2 ((n : ℚ) / 100) = (n : ℚ) / 100 := by
  unfold round2
  rw [div_mul_cancel₀ _ (by norm_num : (100:ℚ) ≠ 0), round_intCast]

lemma bracketStep_nil (x tax prev : ℚ) : bracketStep x [] tax prev = tax := rfl

lemma bracketStep_cons_some (x l r tax prev : ℚ) (rest : List TaxBracket) :
    bracketStep x (⟨some l, r⟩ :: rest) tax prev
      = if x > prev then bracketStep x rest (tax + (min x l - prev) * r) l else tax := rfl

lemma bracketStep_cons_none (x r tax prev : ℚ) (rest : List TaxBracket) :
    bracketStep x (⟨none, r⟩ :: rest) tax prev
      = if x > prev then bracketStep x rest (tax + (x - prev) * r) x else tax := rfl

lemma taxClosedForm_R1 {x : ℚ} (h : x ≤ 11294) : taxClosedForm x = 0 := by
  unfold taxClosedForm
  rw [min_eq_left (by linarith : x ≤ (28797:ℚ)),
      min_eq_left (by linarith : x ≤ (82341:ℚ)),
      min_eq_left (by linarith : x ≤ (177106:ℚ)),
      max_eq_left (by linarith : x - 11294 ≤ (0:ℚ)),
      max_eq_left (by linarith : x - 28797 ≤ (0:ℚ)),
      max_eq_left (by linarith : x - 82341 ≤ (0:ℚ)),
      max_eq_left (by linarith : x - 177106 ≤ (0:ℚ))]
  ring

lemma taxClosedForm_R2 {x : ℚ} (h1 : 11294 ≤ x) (h2 : x ≤ 28797) :
    taxClosedForm x = 0.11 * (x - 11294) := by
  unfold taxClosedForm
  rw [min_eq_left h2,
      min_eq_left (by linarith : x ≤ (82341:ℚ)),
      min_eq_left (by linarith : x ≤ (177106:ℚ)),
      max_eq_right (by linarith : (0:ℚ) ≤ x - 11294),
      max_eq_left (by linarith : x - 28797 ≤ (0:ℚ)),
      max_eq_left (by linarith : x - 82341 ≤ (0:ℚ)),
      max_eq_left (by linarith : x - 177106 ≤ (0:ℚ))]
  ring

lemma taxClosedForm_R3 {x : ℚ} (h1 : 28797 ≤ x) (h2 : x ≤ 82341) :
    taxClosedForm x = 0.11 * (28797 - 11294) + 0.30 * (x - 28797) := by
  unfold taxClosedForm
  rw [min_eq_right (by linarith : (28797:ℚ) ≤ x),
      min_eq_left h2,
      min_eq_left (by linarith : x ≤ (177106:ℚ)),
      max_eq_right (by norm_num : (0:ℚ) ≤ 28797 - 11294),
      max_eq_right (by linarith : (0:ℚ) ≤ x - 28797),
      max_eq_left (by linarith : x - 82341 ≤ (0:ℚ)),
      max_eq_left (by linarith : x - 177106 ≤ (0:ℚ))]
  ring

lemma taxClosedForm_R4 {x : ℚ} (h1 : 82341 ≤ x) (h2 : x ≤ 177106) :
    taxClosedForm x
      = 0.11 * (28797 - 11294) + 0.30 * (82341 - 28797) + 0.41 * (x - 82341) := by
  unfold taxClosedForm
  rw [min_eq_right (by linarith : (28797:ℚ) ≤ x),
      min_eq_right (by linarith : (82341:ℚ) ≤ x),
      min_eq_left h2,
      max_eq_right (by norm_num : (0:ℚ) ≤ 28797 - 11294),
      max_eq_right (by norm_num : (0:ℚ) ≤ 82341 - 28797),
      max_eq_right (by linarith : (0:ℚ) ≤ x - 82341),
      max_eq_left (by linarith : x - 177106 ≤ (0:ℚ))]
  ring

lemma taxClosedForm_R5 {x : ℚ} (h1 : 177106 ≤ x) :
    taxClosedForm x
      = 0.11 * (28797 - 11294) + 0.30 * (82341 - 28797) + 0.41 * (177106 - 82341)
        + 0.45 * (x - 177106) := by
  unfold taxClosedForm
  rw [min_eq_right (by linarith : (28797:ℚ) ≤ x),
      min_eq_right (by linarith : (82341:ℚ) ≤ x),
      min_eq_right (by linarith : (177106:ℚ) ≤ x),
      max_eq_right (by norm_num : (0:ℚ) ≤ 28797 - 11294),
      max_eq_right (by norm_num : (0:ℚ) ≤ 82341 - 28797),
      max_eq_right (by norm_num : (0:ℚ) ≤ 177106 - 82341),
      max_eq_right (by linarith : (0:ℚ) ≤ x - 177106)]

lemma bracketStep_eq_closedForm (x : ℚ) (hx : 0 < x) :
    bracketStep x brackets 0 0 = taxClosedForm x := by
  have h0 : x > 0 := hx
  unfold brackets
  rcases le_or_lt x 11294 with h1 | h1
  · rw [bracketStep_cons_some, if_pos h0,
        bracketStep_cons_some, if_neg (not_lt.mpr h1),
        taxClosedForm_R1 h1]
    ring
  · rcases le_or_lt x 28797 with h2 | h2
    · rw [bracketStep_cons_some, if_pos h0,
          bracketStep_cons_some, if_pos h1,
          bracketStep_cons_some, if_neg (not_lt.mpr h2),
          taxClosedForm_R2 h1.le h2,
          min_eq_right h1.le, min_eq_left h2]
      ring
    · rcases le_or_lt x 82341 with h3 | h3
      · rw [bracketStep_cons_some, if_pos h0,
            bracketStep_cons_some, if_pos h1,
            bracketStep_cons_some, if_pos h2,
            bracketStep_cons_some, if_neg (not_lt.mpr h3),
            taxClosedForm_R3 h2.le h3,
            min_eq_right h1.le, min_eq_right h2.le, min_eq_left h3]
        ring
      · rcases le_or_lt x 177106 with h4 | h4
        · rw [bracketStep_cons_some, if_pos h0,
              bracketStep_cons_some, if_pos h1,
              bracketStep_cons_some, if_pos h2,
              bracketStep_cons_some, if_pos h3,
              bracketStep_cons_none, if_neg (not_lt.mpr h4),
              taxClosedForm_R4 h3.le h4,
              min_eq_right h1.le, min_eq_right h2.le, min_eq_right h3.le,
              min_eq_left h4]
          ring
        · rw [bracketStep_cons_some, if_pos h0,
              bracketStep_cons_some, if_pos h1,
              bracketStep_cons_some, if_pos h2,
              bracketStep_cons_some, if_pos h3,
              bracketStep_cons_none, if_pos h4,
              bracketStep_nil,
              taxClosedForm_R5 h4.le,
              min_eq_right h1.le, min_eq_right h2.le, min_eq_right h3.le,
              min_eq_right h4.le]
          ring

lemma calculateIncomeTax_eq_closedForm (x : ℚ) :
    calculateIncomeTax x = round2 (taxClosedForm x) := by
  unfold calculateIncomeTax
  split_ifs with h
  · rw [taxClosedForm_R1 (by linarith), round2_zero]
  · rw [bracketStep_eq_closedForm x (by linarith)]

lemma taxClosedForm_mono {a b : ℚ} (h : a ≤ b) : taxClosedForm a ≤ taxClosedForm b := by
  unfold taxClosedForm
  have h1 : max 0 (min a 28797 - 11294) ≤ max 0 (min b 28797 - 11294) :=
    max_le_max le_rfl (sub_le_sub_right (min_le_min h le_rfl) _)
  have h2 : max 0 (min a 82341 - 28797) ≤ max 0 (min b 82341 - 28797) :=
    max_le_max le_rfl (sub_le_sub_right (min_le_min h le_rfl) _)
  have h3 : max 0 (min a 177106 - 82341) ≤ max 0 (min b 177106 - 82341) :=
    max_le_max le_rfl (sub_le_sub_right (min_le_min h le_rfl) _)
  have h4 : max 0 (a - 177106) ≤ max 0 (b - 177106) :=
    max_le_max le_rfl (sub_le_sub_right h _)
  have r1 := mul_le_mul_of_nonneg_left h1 (by norm_num : (0:ℚ) ≤ 0.11)
  have r2 := mul_le_mul_of_nonneg_left h2 (by norm_num : (0:ℚ) ≤ 0.30)
  have r3 := mul_le_mul_of_nonneg_left h3 (by norm_num : (0:ℚ) ≤ 0.41)
  have r4 := mul_le_mul_of_nonneg_left h4 (by norm_num : (0:ℚ) ≤ 0.45)
  linarith

lemma taxClosedForm_nonneg (x : ℚ) : 0 ≤ taxClosedForm x := by
  unfold taxClosedForm
  have h1 : (0:ℚ) ≤ max 0 (min x 28797 - 11294) := le_max_left 0 _
  have h2 : (0:ℚ) ≤ max 0 (min x 82341 - 28797) := le_max_left 0 _
  have h3 : (0:ℚ) ≤ max 0 (min x 177106 - 82341) := le_max_left 0 _
  have h4 : (0:ℚ) ≤ max 0 (x - 177106) := le_max_left 0 _
  linarith

lemma taxClosedForm_le (x : ℚ) : taxClosedForm x ≤ 0.45 * max 0 (x - 11294) := by
  rcases le_or_lt x 11294 with h1 | h1
  · rw [taxClosedForm_R1 h1]
    have h : (0:ℚ) ≤ max 0 (x - 11294) := le_max_left _ _
    linarith
  · rw [max_eq_right (by linarith : (0:ℚ) ≤ x - 11294)]
    rcases le_or_lt x 28797 with h2 | h2
    · rw [taxClosedForm_R2 h1.le h2]; linarith
    · rcases le_or_lt x 82341 with h3 | h3
      · rw [taxClosedForm_R3 h2.le h3]; linarith
      · rcases le_or_lt x 177106 with h4 | h4
        · rw [taxClosedForm_R4 h3.le h4]; linarith
        · rw [taxClosedForm_R5 h4.le]; linarith

example : calculateIncomeTax 28797 = 1925.33 := by
  rw [calculateIncomeTax_eq_closedForm]
  have h : taxClosedForm 28797 = 192533 / 100 := by
    rw [taxClosedForm_R2 (by norm_num) (by norm_num)]
    norm_num
  rw [h]
  have h2 := round2_div_100 192533
  norm_num at h2 ⊢
  exact h2

/-- Result record of `calculateMicroRegimeTax` (latest revision of
src/lib/tax-calculator.ts). -/
structure MicroRegimeResult where
  taxableIncome : ℚ
  taxAmount : ℚ
  allowanceApplied : ℚ
  allowanceRate : ℚ
  urssafSocialContributionsRate : ℚ
  cfpRate : ℚ
  urssafSocialContributions : ℚ
  cfpContribution : ℚ
  totalUrssafContributions : ℚ
  netIncomeAfterAll : ℚ
deriving DecidableEq, Repr

/-- Per-activity rate record of `getMicroRates`. -/
structure MicroRates where
  allowanceRate : ℚ
  urssafSocialRate : ℚ
  cfpRate : ℚ
  minAllowance : ℚ
deriving DecidableEq, Repr

/-- Embedding of `getMicroRates`.  The JavaScript `default` branch
(returning the LIBERAL_BNC_AUTRE rates) is unreachable here because the
enumeration is closed. -/
def getMicroRates : ActivityType → MicroRates
  | .VENTE_BIC => ⟨0.71, 0.123, 0.001, 305⟩
  | .SERVICE_BIC => ⟨0.50, 0.212, 0.001, 305⟩
  | .LIBERAL_BNC_AUTRE => ⟨0.34, 0.231, 0.002, 305⟩
  | .LIBERAL_BNC_CIPAV => ⟨0.34, 0.232, 0.002, 305⟩

/-- The local `effectiveAllowance` of `calculateMicroRegimeTax`:
`Math.min(revenue, Math.max(revenue * allowanceRate, minAllowance))`
after clamping the revenue to 0. -/
def microEffectiveAllowance (annualRevenue : ℚ) (activityType : ActivityType) : ℚ :=
  let revenue := max 0 annualRevenue
  let rates := getMicroRates activityType
  let percentageAllowance := revenue * rates.allowanceRate
  min revenue (max percentageAllowance rates.minAllowance)

/-- The local `taxableIncomeForTax` of `calculateMicroRegimeTax`:
`revenue - effectiveAllowance` clamped to 0. -/
def microTaxableIncomeForTax (annualRevenue : ℚ) (activityType : ActivityType) : ℚ :=
  let revenue := max 0 annualRevenue
  let t := revenue - microEffectiveAllowance annualRevenue activityType
  if t < 0 then 0 else t

/-- Embedding of `calculateMicroRegimeTax` (latest revision, taking the
actual expenses as an argument). -/
def calculateMicroRegimeTax (annualRevenue annualExpenses : ℚ)
    (activityType : ActivityType) : MicroRegimeResult :=
  let revenue := max 0 annualRevenue
  let expenses := max 0 annualExpenses
  let rates := getMicroRates activityType
  let effectiveAllowance := microEffectiveAllowance annualRevenue activityType
  let taxableIncomeForTax := microTaxableIncomeForTax annualRevenue activityType
  let taxAmount := calculateIncomeTax taxableIncomeForTax
  let urssafSocialContributions := revenue * rates.urssafSocialRate
  let cfpContribution := revenue * rates.cfpRate
  let totalUrssafContributions := urssafSocialContributions + cfpContribution
  let netIncomeAfterAll := revenue - expenses - taxAmount - totalUrssafContributions
  { taxableIncome := round2 taxableIncomeForTax
    taxAmount := taxAmount
    allowanceApplied := round2 effectiveAllowance
    allowanceRate := rates.allowanceRate
    urssafSocialContributionsRate := rates.urssafSocialRate
    cfpRate := rates.cfpRate
    urssafSocialContributions := round2 urssafSocialContributions
    cfpContribution := round2 cfpContribution
    totalUrssafContributions := round2 totalUrssafContributions
    netIncomeAfterAll := round2 netIncomeAfterAll }

/-- The constant `socialContributionRateFactor` of `calculateReelRegimeTax`. -/
def socialContributionRateFactor : ℚ := 0.45

/-- The local `profitBeforeSC` of `calculateReelRegimeTax`:
`revenue - expenses` (both clamped to 0), itself clamped to 0. -/
def reelProfitBeforeSC (annualRevenue annualExpenses : ℚ) : ℚ :=
  let revenue := max 0 annualRevenue
  let expenses := max 0 annualExpenses
  let p := revenue - expenses
  if p < 0 then 0 else p

/-- The local `estimatedSocialContributions` of `calculateReelRegimeTax`:
the closed-form solution `profit / (1 + f) * f` of the fixed-point
equation, guarded by `profit > 0`. -/
def reelEstimatedSocialContributions (annualRevenue annualExpenses : ℚ) : ℚ :=
  let profitBeforeSC := reelProfitBeforeSC annualRevenue annualExpenses
  if profitBeforeSC > 0 then
    profitBeforeSC / (1 + socialContributionRateFactor) * socialContributionRateFactor
  else 0

/-- The local `taxableIncomeForIR` of `calculateReelRegimeTax`:
`profitBeforeSC - estimatedSocialContributions` clamped to 0. -/
def reelTaxableIncomeForIR (annualRevenue annualExpenses : ℚ) : ℚ :=
  let t := reelProfitBeforeSC annualRevenue annualExpenses
            - reelEstimatedSocialContributions annualRevenue annualExpenses
  if t < 0 then 0 else t

/-- Result record of `calculateReelRegimeTax` (latest revision of
src/lib/tax-calculator.ts). -/
structure ReelRegimeResult where
  taxableIncome : ℚ
  taxAmount : ℚ
  estimatedSocialContributionsRate : ℚ
  estimatedSocialContributions : ℚ
  netIncomeAfterAllContributions : ℚ
deriving DecidableEq, Repr

/-- Embedding of `calculateReelRegimeTax` (latest revision, with the
fixed-point social-contribution estimate). -/
def calculateReelRegimeTax (annualRevenue annualExpenses : ℚ) : ReelRegimeResult :=
  let taxableIncomeForIR := reelTaxableIncomeForIR annualRevenue annualExpenses
  let taxAmount := calculateIncomeTax taxableIncomeForIR
  let netIncomeAfterAll := taxableIncomeForIR - taxAmount
  { taxableIncome := round2 taxableIncomeForIR
    taxAmount := taxAmount
    estimatedSocialContributionsRate := socialContributionRateFactor
    estimatedSocialContributions :=
      round2 (reelEstimatedSocialContributions annualRevenue annualExpenses)
    netIncomeAfterAllContributions := round2 netIncomeAfterAll }

example : (calculateMicroRegimeTax 500 0 ActivityType.LIBERAL_BNC_AUTRE).allowanceApplied = 305 := by
  norm_num [calculateMicroRegimeTax, microEffectiveAllowance, getMicroRates,
    round2, round_eq, min_def, max_def]

example : (calculateMicroRegimeTax 500 0 ActivityType.LIBERAL_BNC_AUTRE).taxAmount = 0 := by
  norm_num [calculateMicroRegimeTax, microTaxableIncomeForTax, microEffectiveAllowance,
    getMicroRates, calculateIncomeTax, bracketStep, brackets,
    round2, round_eq, min_def, max_def]

example : (calculateReelRegimeTax 50000 10000).estimatedSocialContributions = 12413.79 := by
  norm_num [calculateReelRegimeTax, reelEstimatedSocialContributions, reelProfitBeforeSC,
    socialContributionRateFactor, round2, round_eq, min_def, max_def]

lemma ite_lt_zero_eq_max (t : ℚ) : (if t < 0 then (0:ℚ) else t) = max 0 t := by
  rcases lt_or_le t 0 with h | h
  · rw [if_pos h, max_eq_left h.le]
  · rw [if_neg (not_lt.mpr h), max_eq_right h]

lemma reelProfitBeforeSC_nonneg (r e : ℚ) : 0 ≤ reelProfitBeforeSC r e := by
  simp only [reelProfitBeforeSC]
  split_ifs with h
  · exact le_rfl
  · exact not_lt.mp h

lemma reelSC_nonneg (r e : ℚ) : 0 ≤ reelEstimatedSocialContributions r e := by
  simp only [reelEstimatedSocialContributions, socialContributionRateFactor]
  split_ifs with h
  · exact mul_nonneg (div_nonneg h.le (by norm_num)) (by norm_num)
  · exact le_rfl

lemma reelTaxable_nonneg (r e : ℚ) : 0 ≤ reelTaxableIncomeForIR r e := by
  simp only [reelTaxableIncomeForIR]
  split_ifs with h
  · exact le_rfl
  · exact not_lt.mp h

lemma calculateIncomeTax_nonneg (x : ℚ) : 0 ≤ calculateIncomeTax x := by
  rw [calculateIncomeTax_eq_closedForm]
  exact round2_nonneg (taxClosedForm_nonneg x)

/-- The marginal tax, even rounded up, never exceeds the income itself. -/
lemma sub_tax_nonneg {t : ℚ} (ht : 0 ≤ t) : 0 ≤ t - calculateIncomeTax t := by
  rw [calculateIncomeTax_eq_closedForm]
  rcases le_or_lt t 11294 with h | h
  · rw [taxClosedForm_R1 h, round2_zero]
    linarith
  · have h1 := round2_le (taxClosedForm t)
    have h2 := taxClosedForm_le t
    rw [max_eq_right (by linarith : (0:ℚ) ≤ t - 11294)] at h2
    linarith

end TaxCalc

namespace Actions

/-!
Embedding of the simulation orchestrator `getTaxSimulation` from
src/app/actions.ts (the revision the claims cite), together with the
tax-calculator revision it compiles against (src/unnamed/part_002):
there `calculateMicroRegimeTax` takes no expenses argument and
`ReelRegimeResult` has no social-contribution fields.  Rate tables and
`calculateIncomeTax` are identical to the latest revision and are
shared with the `TaxCalc` namespace.
-/

/-- Result record of the Réel calculator of src/unnamed/part_002. -/
structure ReelRegimeResult where
  taxableIncome : ℚ
  taxAmount : ℚ
  netIncomeAfterTax : ℚ
deriving DecidableEq, Repr

/-- Embedding of the two-argument `calculateMicroRegimeTax` of
src/unnamed/part_002: same rate logic as the latest revision, but the
net income subtracts only tax and contributions, not actual expenses. -/
def calculateMicroRegimeTax (annualRevenue : ℚ) (activityType : TaxCalc.ActivityType) :
    TaxCalc.MicroRegimeResult :=
  let revenue := max 0 annualRevenue
  let rates := TaxCalc.getMicroRates activityType
  let effectiveAllowance := TaxCalc.microEffectiveAllowance annualRevenue activityType
  let taxableIncomeForTax := TaxCalc.microTaxableIncomeForTax annualRevenue activityType
  let taxAmount := TaxCalc.calculateIncomeTax taxableIncomeForTax
  let urssafSocialContributions := revenue * rates.urssafSocialRate
  let cfpContribution := revenue * rates.cfpRate
  let totalUrssafContributions := urssafSocialContributions + cfpContribution
  let netIncomeAfterAll := revenue - taxAmount - totalUrssafContributions
  { taxableIncome := TaxCalc.round2 taxableIncomeForTax
    taxAmount := taxAmount
    allowanceApplied := TaxCalc.round2 effectiveAllowance
    allowanceRate := rates.allowanceRate
    urssafSocialContributionsRate := rates.urssafSocialRate
    cfpRate := rates.cfpRate
    urssafSocialContributions := TaxCalc.round2 urssafSocialContributions
    cfpContribution := TaxCalc.round2 cfpContribution
    totalUrssafContributions := TaxCalc.round2 totalUrssafContributions
    netIncomeAfterAll := TaxCalc.round2 netIncomeAfterAll }

/-- Embedding of the `calculateReelRegimeTax` of src/unnamed/part_002:
taxable income is the clamped profit, with no social contributions. -/
def calculateReelRegimeTax (annualRevenue annualExpenses : ℚ) : ReelRegimeResult :=
  let revenue := max 0 annualRevenue
  let expenses := max 0 annualExpenses
  let taxableIncomePre := revenue - expenses
  let taxableIncome := if taxableIncomePre < 0 then 0 else taxableIncomePre
  let taxAmount := TaxCalc.calculateIncomeTax taxableIncome
  let netIncomeAfterTax := revenue - expenses - taxAmount
  { taxableIncome := TaxCalc.round2 taxableIncome
    taxAmount := taxAmount
    netIncomeAfterTax := TaxCalc.round2 netIncomeAfterTax }

/-- Raw input of `getTaxSimulation`.  The raw activity-type value is
modelled as an option: `none` stands for any value outside the closed
enumeration, which the zod schema rejects. -/
structure SimulationInput where
  annualRevenue : ℚ
  annualExpenses : ℚ
  activityType : Option TaxCalc.ActivityType
deriving DecidableEq, Repr

/-- Validation message of the zod rule `annualRevenue ≥ 0`. -/
def revenueErrorMsg : String :=
  "Le chiffre d\u0027affaires annuel doit être positif ou nul."

/-- Validation message of the zod rule `annualExpenses ≥ 0`. -/
def expensesErrorMsg : String :=
  "Les charges annuelles doivent être positives ou nulles."

/-- Validation message of the zod enumeration rule on the activity type. -/
def activityErrorMsg : String :=
  "Veuillez sélectionner un type d\u0027activité valide."

/-- The fixed fallback recommendation text used when the advisory
generator throws. -/
def aiFallbackMsg : String :=
  "La recommandation IA n\u0027a pas pu être générée."

/-- The validation messages produced by `SimulationInputSchema.safeParse`,
in schema field order. -/
def validationErrors (d : SimulationInput) : List String :=
  (if d.annualRevenue < 0 then [revenueErrorMsg] else [])
    ++ (if d.annualExpenses < 0 then [expensesErrorMsg] else [])
    ++ (if d.activityType.isNone then [activityErrorMsg] else [])

/-- Model of `SimulationInputSchema.safeParse`: the validated data on
success, `none` on any validation failure. -/
def safeParse (d : SimulationInput) :
    Option (ℚ × ℚ × TaxCalc.ActivityType) :=
  match d.activityType with
  | some a =>
    if 0 ≤ d.annualRevenue ∧ 0 ≤ d.annualExpenses then
      some (d.annualRevenue, d.annualExpenses, a)
    else none
  | none => none

/-- The `SimulationResult` record of src/app/actions.ts. -/
structure SimulationResult where
  micro : Option TaxCalc.MicroRegimeResult
  reel : Option ReelRegimeResult
  aiRecommendation : Option String
  error : Option String
  activityType : Option TaxCalc.ActivityType
deriving DecidableEq, Repr

/-- The zeroed default micro result constructed in the failure branches
of `getTaxSimulation` (LIBERAL_BNC_AUTRE rate table, all amounts 0). -/
def defaultMicroResult : TaxCalc.MicroRegimeResult :=
  { taxableIncome := 0, taxAmount := 0, allowanceApplied := 0
    allowanceRate := 0.34, urssafSocialContributionsRate := 0.231, cfpRate := 0.002
    urssafSocialContributions := 0, cfpContribution := 0, totalUrssafContributions := 0
    netIncomeAfterAll := 0 }

/-- The zeroed default Réel result of the same branches. -/
def defaultReelResult : ReelRegimeResult :=
  { taxableIncome := 0, taxAmount := 0, netIncomeAfterTax := 0 }

/-- Embedding of `getTaxSimulation`.  The outcome of the external
advisory generator is an explicit argument: `some t` models a successful
call returning the text `t`, `none` models the call throwing.  The outer
try/catch around the two calculators is dead code here because both
calculators are total functions. -/
def getTaxSimulation (d : SimulationInput) (advisoryOutcome : Option String) :
    SimulationResult :=
  match safeParse d with
  | none =>
    { micro := some defaultMicroResult
      reel := some defaultReelResult
      aiRecommendation := none
      error := some (String.intercalate ", " (validationErrors d))
      activityType := some (d.activityType.getD TaxCalc.ActivityType.LIBERAL_BNC_AUTRE) }
  | some (annualRevenue, annualExpenses, activityType) =>
    let microResult := calculateMicroRegimeTax annualRevenue activityType
    let reelResult := calculateReelRegimeTax annualRevenue annualExpenses
    let aiRecommendationText : Option String :=
      match advisoryOutcome with
      | some t => some t
      | none => some aiFallbackMsg
    { micro := some microResult
      reel := some reelResult
      aiRecommendation := aiRecommendationText
      error := none
      activityType := some activityType }

end Actions

open TaxCalc

/-- Claim C1: for non-negative revenue and expenses, with profit
P = max(0, revenue - expenses), the social contributions computed by
calculateReelRegimeTax (before the final 2-decimal rounding of the
returned field) equal P * 0.45 / (1 + 0.45), and this value C satisfies
the fixed-point equation C = 0.45 * (P - C) exactly. -/
theorem reel_contributions_fixed_point (annualRevenue annualExpenses : ℚ)
    (hr : 0 ≤ annualRevenue) (he : 0 ≤ annualExpenses) :
    reelEstimatedSocialContributions annualRevenue annualExpenses
        = max 0 (annualRevenue - annualExpenses) * 0.45 / (1 + 0.45)
    ∧ reelEstimatedSocialContributions annualRevenue annualExpenses
        = 0.45 * (max 0 (annualRevenue - annualExpenses)
            - reelEstimatedSocialContributions annualRevenue annualExpenses)
    ∧ (calculateReelRegimeTax annualRevenue annualExpenses).estimatedSocialContributions
        = round2 (reelEstimatedSocialContributions annualRevenue annualExpenses) := by
  have hP : reelProfitBeforeSC annualRevenue annualExpenses
      = max 0 (annualRevenue - annualExpenses) := by
    simp only [reelProfitBeforeSC, max_eq_right hr, max_eq_right he]
    exact ite_lt_zero_eq_max _
  have hC : reelEstimatedSocialContributions annualRevenue annualExpenses
      = max 0 (annualRevenue - annualExpenses) * 0.45 / (1 + 0.45) := by
    simp only [reelEstimatedSocialContributions, socialContributionRateFactor, hP]
    rcases lt_or_le 0 (max 0 (annualRevenue - annualExpenses)) with h | h
    · rw [if_pos h, div_mul_eq_mul_div]
    · have h0 : max 0 (annualRevenue - annualExpenses) = 0 :=
        le_antisymm h (le_max_left _ _)
      rw [if_neg (not_lt.mpr h), h0]
      norm_num
  refine ⟨hC, ?_, rfl⟩
  rw [hC]
  field_simp
  ring

/-- Instantiation of reel_contributions_fixed_point at revenue 50000 and
expenses 10000. -/
theorem reel_contributions_fixed_point_witness :
    (0:ℚ) ≤ 50000 ∧ (0:ℚ) ≤ 10000
    ∧ reelEstimatedSocialContributions 50000 10000
        = max 0 ((50000:ℚ) - 10000) * 0.45 / (1 + 0.45) :=
  ⟨by norm_num, by norm_num,
   (reel_contributions_fixed_point 50000 10000 (by norm_num) (by norm_num)).1⟩

/-- Claim C2: calculateIncomeTax returns 0 for every input up to 11294
(including 0 and all negative inputs) and returns the exact marginal
amount (28797 - 11294) * 0.11 = 1925.33 at the next bracket boundary. -/
theorem incomeTax_zero_floor_and_boundary :
    (∀ x : ℚ, x ≤ 11294 → calculateIncomeTax x = 0)
    ∧ calculateIncomeTax 28797 = 1925.33 := by
  constructor
  · intro x hx
    rw [calculateIncomeTax_eq_closedForm, taxClosedForm_R1 hx, round2_zero]
  · rw [calculateIncomeTax_eq_closedForm]
    have h : taxClosedForm 28797 = 192533 / 100 := by
      rw [taxClosedForm_R2 (by norm_num) (by norm_num)]
      norm_num
    rw [h]
    have h2 := round2_div_100 192533
    norm_num at h2 ⊢
    exact h2

/-- Instantiation of the zero-floor part of
incomeTax_zero_floor_and_boundary at the inputs 0 and -7. -/
theorem incomeTax_zero_floor_and_boundary_witness :
    ((0:ℚ) ≤ 11294 ∧ calculateIncomeTax 0 = 0)
    ∧ ((-7:ℚ) ≤ 11294 ∧ calculateIncomeTax (-7) = 0) :=
  ⟨⟨by norm_num, incomeTax_zero_floor_and_boundary.1 0 (by norm_num)⟩,
   ⟨by norm_num, incomeTax_zero_floor_and_boundary.1 (-7) (by norm_num)⟩⟩

/-- Claim C3: calculateIncomeTax is monotone non-decreasing on
0 ≤ a ≤ b. -/
theorem calculateIncomeTax_mono (a b : ℚ) (ha : 0 ≤ a) (hab : a ≤ b) :
    calculateIncomeTax a ≤ calculateIncomeTax b := by
  rw [calculateIncomeTax_eq_closedForm, calculateIncomeTax_eq_closedForm]
  exact round2_mono (taxClosedForm_mono hab)

/-- Instantiation of calculateIncomeTax_mono at 20000 and 40000. -/
theorem calculateIncomeTax_mono_witness :
    (0:ℚ) ≤ 20000 ∧ (20000:ℚ) ≤ 40000
    ∧ calculateIncomeTax 20000 ≤ calculateIncomeTax 40000 :=
  ⟨by norm_num, by norm_num,
   calculateIncomeTax_mono 20000 40000 (by norm_num) (by norm_num)⟩

/-- Claim C4: the Micro allowance applied is
min(revenue, max(revenue * allowanceRate, 305)), so the (pre-rounding)
allowance never exceeds the revenue, and the income-tax base is
max(0, revenue - allowance); for revenue 500 with activity
LIBERAL_BNC_AUTRE the allowance is 305, the base 195 and the tax 0. -/
theorem micro_allowance_floor_and_cap (annualRevenue annualExpenses : ℚ)
    (a : ActivityType) (hr : 0 ≤ annualRevenue) :
    (calculateMicroRegimeTax annualRevenue annualExpenses a).allowanceApplied
        = round2 (min annualRevenue
            (max (annualRevenue * (getMicroRates a).allowanceRate) 305))
    ∧ microEffectiveAllowance annualRevenue a ≤ annualRevenue
    ∧ (calculateMicroRegimeTax annualRevenue annualExpenses a).taxableIncome
        = round2 (max 0 (annualRevenue - microEffectiveAllowance annualRevenue a))
    ∧ (calculateMicroRegimeTax 500 annualExpenses ActivityType.LIBERAL_BNC_AUTRE).allowanceApplied
        = 305
    ∧ (calculateMicroRegimeTax 500 annualExpenses ActivityType.LIBERAL_BNC_AUTRE).taxableIncome
        = 195
    ∧ (calculateMicroRegimeTax 500 annualExpenses ActivityType.LIBERAL_BNC_AUTRE).taxAmount
        = 0 := by
  have hmin : (getMicroRates a).minAllowance = 305 := by
    cases a <;> rfl
  have hall : microEffectiveAllowance annualRevenue a
      = min annualRevenue (max (annualRevenue * (getMicroRates a).allowanceRate) 305) := by
    rw [← hmin]
    simp only [microEffectiveAllowance, max_eq_right hr]
  have hbase : microTaxableIncomeForTax annualRevenue a
      = max 0 (annualRevenue - microEffectiveAllowance annualRevenue a) := by
    simp only [microTaxableIncomeForTax, max_eq_right hr]
    exact ite_lt_zero_eq_max _
  have h500 : microEffectiveAllowance 500 ActivityType.LIBERAL_BNC_AUTRE = 305 := by
    norm_num [microEffectiveAllowance, getMicroRates, min_def, max_def]
  have hb500 : microTaxableIncomeForTax 500 ActivityType.LIBERAL_BNC_AUTRE = 195 := by
    norm_num [microTaxableIncomeForTax, h500, max_def]
  refine ⟨?_, ?_, ?_, ?_, ?_, ?_⟩
  · show round2 (microEffectiveAllowance annualRevenue a) = _
    rw [hall]
  · rw [hall]
    exact min_le_left _ _
  · show round2 (microTaxableIncomeForTax annualRevenue a) = _
    rw [hbase]
  · show round2 (microEffectiveAllowance 500 ActivityType.LIBERAL_BNC_AUTRE) = 305
    rw [h500]
    have h := round2_div_100 30500
    norm_num at h
    exact h
  · show round2 (microTaxableIncomeForTax 500 ActivityType.LIBERAL_BNC_AUTRE) = 195
    rw [hb500]
    have h := round2_div_100 19500
    norm_num at h
    exact h
  · show calculateIncomeTax (microTaxableIncomeForTax 500 ActivityType.LIBERAL_BNC_AUTRE) = 0
    rw [hb500, calculateIncomeTax_eq_closedForm, taxClosedForm_R1 (by norm_num), round2_zero]

/-- Instantiation of the allowance-cap part of
micro_allowance_floor_and_cap at revenue 100, activity VENTE_BIC. -/
theorem micro_allowance_floor_and_cap_witness :
    (0:ℚ) ≤ 100 ∧ microEffectiveAllowance 100 ActivityType.VENTE_BIC ≤ 100 :=
  ⟨by norm_num,
   (micro_allowance_floor_and_cap 100 0 ActivityType.VENTE_BIC (by norm_num)).2.1⟩

/-- Claim C5: Micro social contributions and the CFP levy equal gross
revenue times the activity rates — assessed on gross revenue, not on the
allowance-reduced base — and do not depend on the expenses argument. -/
theorem micro_contributions_on_gross_revenue
    (annualRevenue annualExpenses : ℚ) (a : ActivityType) (hr : 0 ≤ annualRevenue) :
    (calculateMicroRegimeTax annualRevenue annualExpenses a).urssafSocialContributions
        = round2 (annualRevenue * (getMicroRates a).urssafSocialRate)
    ∧ (calculateMicroRegimeTax annualRevenue annualExpenses a).cfpContribution
        = round2 (annualRevenue * (getMicroRates a).cfpRate)
    ∧ ∀ otherExpenses : ℚ,
        (calculateMicroRegimeTax annualRevenue otherExpenses a).urssafSocialContributions
          = (calculateMicroRegimeTax annualRevenue annualExpenses a).urssafSocialContributions
        ∧ (calculateMicroRegimeTax annualRevenue otherExpenses a).cfpContribution
          = (calculateMicroRegimeTax annualRevenue annualExpenses a).cfpContribution := by
  refine ⟨?_, ?_, fun otherExpenses => ⟨rfl, rfl⟩⟩
  · show round2 (max 0 annualRevenue * (getMicroRates a).urssafSocialRate) = _
    rw [max_eq_right hr]
  · show round2 (max 0 annualRevenue * (getMicroRates a).cfpRate) = _
    rw [max_eq_right hr]

/-- Instantiation of micro_contributions_on_gross_revenue at revenue
50000 and expenses 10000, activity LIBERAL_BNC_AUTRE. -/
theorem micro_contributions_on_gross_revenue_witness :
    (0:ℚ) ≤ 50000
    ∧ (calculateMicroRegimeTax 50000 10000 ActivityType.LIBERAL_BNC_AUTRE).urssafSocialContributions
        = round2 ((50000:ℚ) * (getMicroRates ActivityType.LIBERAL_BNC_AUTRE).urssafSocialRate) :=
  ⟨by norm_num,
   (micro_contributions_on_gross_revenue 50000 10000 ActivityType.LIBERAL_BNC_AUTRE
      (by norm_num)).1⟩

/-- Claim C6: the Micro net income is revenue - expenses - tax - social
contributions - CFP levy, rounded to 2 decimals: the actual expenses are
subtracted even though they enter no tax or contribution base. -/
theorem micro_net_income_subtracts_expenses
    (annualRevenue annualExpenses : ℚ) (a : ActivityType)
    (hr : 0 ≤ annualRevenue) (he : 0 ≤ annualExpenses) :
    (calculateMicroRegimeTax annualRevenue annualExpenses a).netIncomeAfterAll
      = round2 (annualRevenue - annualExpenses
          - (calculateMicroRegimeTax annualRevenue annualExpenses a).taxAmount
          - annualRevenue * (getMicroRates a).urssafSocialRate
          - annualRevenue * (getMicroRates a).cfpRate) := by
  have ht : (calculateMicroRegimeTax annualRevenue annualExpenses a).taxAmount
      = calculateIncomeTax (microTaxableIncomeForTax annualRevenue a) := rfl
  show round2 (max 0 annualRevenue - max 0 annualExpenses
      - calculateIncomeTax (microTaxableIncomeForTax annualRevenue a)
      - (max 0 annualRevenue * (getMicroRates a).urssafSocialRate
          + max 0 annualRevenue * (getMicroRates a).cfpRate)) = _
  rw [ht, max_eq_right hr, max_eq_right he]
  congr 1
  ring

/-- Instantiation of micro_net_income_subtracts_expenses at revenue
50000 and expenses 10000, activity LIBERAL_BNC_AUTRE. -/
theorem micro_net_income_subtracts_expenses_witness :
    (0:ℚ) ≤ 50000 ∧ (0:ℚ) ≤ 10000
    ∧ (calculateMicroRegimeTax 50000 10000 ActivityType.LIBERAL_BNC_AUTRE).netIncomeAfterAll
      = round2 ((50000:ℚ) - 10000
          - (calculateMicroRegimeTax 50000 10000 ActivityType.LIBERAL_BNC_AUTRE).taxAmount
          - 50000 * (getMicroRates ActivityType.LIBERAL_BNC_AUTRE).urssafSocialRate
          - 50000 * (getMicroRates ActivityType.LIBERAL_BNC_AUTRE).cfpRate) :=
  ⟨by norm_num, by norm_num,
   micro_net_income_subtracts_expenses 50000 10000 ActivityType.LIBERAL_BNC_AUTRE
     (by norm_num) (by norm_num)⟩

/-- Claim C7: the Réel taxable income is max(0, profit - contributions),
the tax is the progressive tax function applied to that value, and the
net income is taxable income minus tax, with the contributions not
subtracted a second time. -/
theorem reel_taxable_income_and_net (annualRevenue annualExpenses : ℚ)
    (hr : 0 ≤ annualRevenue) (he : 0 ≤ annualExpenses) :
    (calculateReelRegimeTax annualRevenue annualExpenses).taxableIncome
        = round2 (max 0 (reelProfitBeforeSC annualRevenue annualExpenses
            - reelEstimatedSocialContributions annualRevenue annualExpenses))
    ∧ (calculateReelRegimeTax annualRevenue annualExpenses).taxAmount
        = calculateIncomeTax (max 0 (reelProfitBeforeSC annualRevenue annualExpenses
            - reelEstimatedSocialContributions annualRevenue annualExpenses))
    ∧ (calculateReelRegimeTax annualRevenue annualExpenses).netIncomeAfterAllContributions
        = round2 (max 0 (reelProfitBeforeSC annualRevenue annualExpenses
              - reelEstimatedSocialContributions annualRevenue annualExpenses)
            - calculateIncomeTax (max 0 (reelProfitBeforeSC annualRevenue annualExpenses
              - reelEstimatedSocialContributions annualRevenue annualExpenses))) := by
  have hT : reelTaxableIncomeForIR annualRevenue annualExpenses
      = max 0 (reelProfitBeforeSC annualRevenue annualExpenses
          - reelEstimatedSocialContributions annualRevenue annualExpenses) := by
    simp only [reelTaxableIncomeForIR]
    exact ite_lt_zero_eq_max _
  refine ⟨?_, ?_, ?_⟩
  · show round2 (reelTaxableIncomeForIR annualRevenue annualExpenses) = _
    rw [hT]
  · show calculateIncomeTax (reelTaxableIncomeForIR annualRevenue annualExpenses) = _
    rw [hT]
  · show round2 (reelTaxableIncomeForIR annualRevenue annualExpenses
        - calculateIncomeTax (reelTaxableIncomeForIR annualRevenue annualExpenses)) = _
    rw [hT]

/-- Instantiation of reel_taxable_income_and_net at revenue 50000 and
expenses 10000. -/
theorem reel_taxable_income_and_net_witness :
    (0:ℚ) ≤ 50000 ∧ (0:ℚ) ≤ 10000
    ∧ (calculateReelRegimeTax 50000 10000).taxAmount
        = calculateIncomeTax (max 0 (reelProfitBeforeSC 50000 10000
            - reelEstimatedSocialContributions 50000 10000)) :=
  ⟨by norm_num, by norm_num,
   (reel_taxable_income_and_net 50000 10000 (by norm_num) (by norm_num)).2.1⟩

/-- Claim C8: every numeric field of the Réel result is non-negative for
non-negative revenue and expenses — taxable income and contributions by
construction, the tax by non-negativity of the bracket sum, and the net
income because the marginal tax on an income never exceeds the income. -/
theorem reel_result_nonneg (annualRevenue annualExpenses : ℚ)
    (hr : 0 ≤ annualRevenue) (he : 0 ≤ annualExpenses) :
    0 ≤ (calculateReelRegimeTax annualRevenue annualExpenses).taxableIncome
    ∧ 0 ≤ (calculateReelRegimeTax annualRevenue annualExpenses).estimatedSocialContributions
    ∧ 0 ≤ (calculateReelRegimeTax annualRevenue annualExpenses).taxAmount
    ∧ 0 ≤ (calculateReelRegimeTax annualRevenue annualExpenses).netIncomeAfterAllContributions := by
  refine ⟨?_, ?_, ?_, ?_⟩
  · show 0 ≤ round2 (reelTaxableIncomeForIR annualRevenue annualExpenses)
    exact round2_nonneg (reelTaxable_nonneg _ _)
  · show 0 ≤ round2 (reelEstimatedSocialContributions annualRevenue annualExpenses)
    exact round2_nonneg (reelSC_nonneg _ _)
  · show 0 ≤ calculateIncomeTax (reelTaxableIncomeForIR annualRevenue annualExpenses)
    exact calculateIncomeTax_nonneg _
  · show 0 ≤ round2 (reelTaxableIncomeForIR annualRevenue annualExpenses
        - calculateIncomeTax (reelTaxableIncomeForIR annualRevenue annualExpenses))
    exact round2_nonneg (sub_tax_nonneg (reelTaxable_nonneg _ _))

/-- Instantiation of reel_result_nonneg at revenue 50000 and expenses
10000. -/
theorem reel_result_nonneg_witness :
    (0:ℚ) ≤ 50000 ∧ (0:ℚ) ≤ 10000
    ∧ 0 ≤ (calculateReelRegimeTax 50000 10000).netIncomeAfterAllContributions :=
  ⟨by norm_num, by norm_num,
   (reel_result_nonneg 50000 10000 (by norm_num) (by norm_num)).2.2.2⟩

/-- Claim C9: for every input failing validation (negative revenue,
negative expenses, or an activity type outside the enumeration),
getTaxSimulation returns the concatenated validation messages as the
error, no recommendation, and the fully populated zeroed default micro
and reel results, whatever the advisory outcome. -/
theorem simulation_validation_failure_defaults
    (d : Actions.SimulationInput) (advisoryOutcome : Option String)
    (h : d.annualRevenue < 0 ∨ d.annualExpenses < 0 ∨ d.activityType = none) :
    (Actions.getTaxSimulation d advisoryOutcome).error
        = some (String.intercalate ", " (Actions.validationErrors d))
    ∧ (Actions.getTaxSimulation d advisoryOutcome).aiRecommendation = none
    ∧ (Actions.getTaxSimulation d advisoryOutcome).micro = some Actions.defaultMicroResult
    ∧ (Actions.getTaxSimulation d advisoryOutcome).reel = some Actions.defaultReelResult := by
  have hp : Actions.safeParse d = none := by
    rcases hd : d.activityType with _ | a
    · simp [Actions.safeParse, hd]
    · have hcond : ¬ (0 ≤ d.annualRevenue ∧ 0 ≤ d.annualExpenses) := by
        rcases h with h | h | h
        · exact fun hc => absurd hc.1 (not_le.mpr h)
        · exact fun hc => absurd hc.2 (not_le.mpr h)
        · rw [hd] at h
          cases h
      simp [Actions.safeParse, hd, hcond]
  simp [Actions.getTaxSimulation, hp]

/-- Instantiation of simulation_validation_failure_defaults at the
invalid input revenue = -5 of the spec scenario. -/
theorem simulation_validation_failure_defaults_witness :
    ((-5:ℚ) < 0 ∨ (0:ℚ) < 0
        ∨ (some ActivityType.VENTE_BIC : Option ActivityType) = none)
    ∧ (Actions.getTaxSimulation ⟨-5, 0, some ActivityType.VENTE_BIC⟩ none).micro
        = some Actions.defaultMicroResult :=
  ⟨Or.inl (by norm_num),
   (simulation_validation_failure_defaults ⟨-5, 0, some ActivityType.VENTE_BIC⟩ none
      (Or.inl (by norm_num))).2.2.1⟩

/-- Claim C10: for valid input, if the advisory generator throws, the
returned micro and reel numeric results are identical to those of a
successful run on the same inputs, the recommendation is the fixed
fallback string, and no top-level error is reported. -/
theorem advisory_failure_isolation (d : Actions.SimulationInput) (a : ActivityType)
    (hr : 0 ≤ d.annualRevenue) (he : 0 ≤ d.annualExpenses)
    (ha : d.activityType = some a) :
    ∀ advisoryText : String,
      (Actions.getTaxSimulation d none).micro
          = (Actions.getTaxSimulation d (some advisoryText)).micro
      ∧ (Actions.getTaxSimulation d none).reel
          = (Actions.getTaxSimulation d (some advisoryText)).reel
      ∧ (Actions.getTaxSimulation d none).micro
          = some (Actions.calculateMicroRegimeTax d.annualRevenue a)
      ∧ (Actions.getTaxSimulation d none).reel
          = some (Actions.calculateReelRegimeTax d.annualRevenue d.annualExpenses)
      ∧ (Actions.getTaxSimulation d none).aiRecommendation = some Actions.aiFallbackMsg
      ∧ (Actions.getTaxSimulation d none).error = none := by
  have hp : Actions.safeParse d = some (d.annualRevenue, d.annualExpenses, a) := by
    simp [Actions.safeParse, ha, hr, he]
  intro advisoryText
  simp [Actions.getTaxSimulation, hp]

/-- Instantiation of advisory_failure_isolation at revenue 50000,
expenses 10000, activity LIBERAL_BNC_AUTRE. -/
theorem advisory_failure_isolation_witness :
    (0:ℚ) ≤ 50000 ∧ (0:ℚ) ≤ 10000
    ∧ ((⟨50000, 10000, some ActivityType.LIBERAL_BNC_AUTRE⟩ :
          Actions.SimulationInput).activityType = some ActivityType.LIBERAL_BNC_AUTRE)
    ∧ (Actions.getTaxSimulation ⟨50000, 10000, some ActivityType.LIBERAL_BNC_AUTRE⟩
        none).aiRecommendation = some Actions.aiFallbackMsg :=
  ⟨by norm_num, by norm_num, rfl,
   (advisory_failure_isolation ⟨50000, 10000, some ActivityType.LIBERAL_BNC_AUTRE⟩
      ActivityType.LIBERAL_BNC_AUTRE (by norm_num) (by norm_num) rfl "ok").2.2.2.2.1⟩
